import Mathlib

/-!
# Verification of the ai-running-weather-coach pattern-analysis core

Shallow embedding of `data_analyzer.py` (class `SimpleAnalyzer`) and
`ai_coach.py` (class `FreeAICoach`) of the ai-running-weather-coach
repository, together with proofs of the behavioural claims about them.

Modelling conventions:

* Python `int` is `ℤ`, Python `float` arithmetic is modelled by exact `ℚ`
  arithmetic.  Every numeric literal appearing in the source (`0.8`, `0.7`,
  the divisor `7`, …) has a short binary-quantised fractional structure, so
  the truncations and roundings performed by the source on IEEE doubles
  coincide with the exact rational ones for all realistic magnitudes; the
  exact rational semantics is what we verify.
* Python `round` is round-half-to-even (`pyRound`); Python `int(...)` applied
  to a float truncates towards zero (`pyTruncInt`).
* Python dictionaries built by insertion (`Counter`, `defaultdict`) are
  association lists kept in first-insertion order, which is exactly the
  iteration order Python guarantees.
* `sorted(..., reverse=True)` is a stable descending sort, modelled by a
  stable insertion sort (`sortBySndDesc`).
* Activity records and the recommendation/context dictionaries are fixed
  structures; a field a Python dict may lack (`confidence`, `model`) is an
  `Option`.
* The OpenAI chat-completion call is an external effect; its outcome is an
  explicit parameter of type `ModelOutcome` (raise / valid-JSON / plain
  text), and the module constant `FALLBACK_TO_RULES` is likewise passed as a
  parameter (its configured value is `true`).  Python `int(...)` applied to
  a string can raise `ValueError`, hence the functions that perform it
  return `Option` (with `none` for an escaping exception).
-/

/-- Round-half-to-even on rationals: the behaviour of Python `round` on the
exact value. -/
def pyRound (q : ℚ) : ℤ :=
  let f := ⌊q⌋
  let r := q - f
  if r < 1/2 then f
  else if 1/2 < r then f + 1
  else if f % 2 = 0 then f else f + 1

/-- Truncation towards zero: Python `int(...)` applied to a float. -/
def pyTruncInt (q : ℚ) : ℤ :=
  if 0 ≤ q then ⌊q⌋ else ⌈q⌉

/-- Digits of a decimal string, Python-style: `some n` iff the character
list is non-empty and all digits. -/
def decDigits? : List Char → Option ℕ
  | [] => none
  | cs =>
    if cs.all Char.isDigit then
      some (cs.foldl (fun n c => 10 * n + (c.toNat - 48)) 0)
    else none

/-- Python `int(s)` for a decimal string with an optional leading minus
sign; `none` models the `ValueError` Python raises on anything else.
(Python additionally strips whitespace and accepts `+`/underscores; no call
site of the source feeds it such strings.) -/
def pyInt? (s : String) : Option ℤ :=
  match s.data with
  | '-' :: rest => (decDigits? rest).map (fun n => -(n : ℤ))
  | cs => (decDigits? cs).map (fun n => (n : ℤ))

/-- `int(s.split(':')[0])`: the hour part of an `"HH:MM"` string, as the
source extracts it.  `s.split(':')[0]` is the maximal colon-free head of
the string (`split` on a non-empty separator always yields a non-empty
list whose first group is everything before the first separator). -/
def hourOf? (s : String) : Option ℤ :=
  pyInt? ⟨s.data.takeWhile (· ≠ ':')⟩

/-- Python `%02d` formatting of an integer. -/
def pad2 (n : ℤ) : String :=
  if 0 ≤ n ∧ n < 10 then "0" ++ toString n else toString n

/-- Does `pat` occur as a contiguous substring starting at the head of
`cs`? -/
def headMatch : List Char → List Char → Bool
  | [], _ => true
  | _ :: _, [] => false
  | p :: ps, c :: cs => p = c && headMatch ps cs

/-- Does `pat` occur as a contiguous substring anywhere in `cs`?  Python
`pat in s`. -/
def hasSub (pat : List Char) : List Char → Bool
  | [] => headMatch pat []
  | c :: cs => headMatch pat (c :: cs) || hasSub pat cs

/-- Python `sub in s` on strings. -/
def pyIn (sub s : String) : Bool := hasSub sub.data s.data

/-- Python `s.lower()` (the source only ever lowercases ASCII text). -/
def pyLower (s : String) : String := ⟨s.data.map Char.toLower⟩

/-- Python `s[:n]` on strings. -/
def pySlice (n : ℕ) (s : String) : String := ⟨s.data.take n⟩

/-- One normalized activity record (§3 of the spec): `date` is the ISO
calendar date as an ordinal day count, so that the difference of two dates
in days is subtraction. -/
structure Activity where
  date : ℤ
  start_time : String
  start_hour : ℤ
  weekday : String
  duration_minutes : ℤ
  distance_km : ℚ
  deriving Repr, DecidableEq

/-- The per-invocation context dictionary. -/
structure Context where
  today : String
  time_now : String
  last_run_days_ago : ℤ
  deriving Repr, DecidableEq

/-- `collections.Counter` / dict increment `d[k] += 1` on an association
list kept in first-insertion order. -/
def bumpKey {α : Type} [DecidableEq α] : List (α × ℕ) → α → List (α × ℕ)
  | [], k => [(k, 1)]
  | (a, n) :: rest, k =>
    if a = k then (a, n + 1) :: rest else (a, n) :: bumpKey rest k

/-- Counting all elements of a list into an insertion-ordered association
list: the contents and iteration order of `Counter(xs)`. -/
def counterItems {α : Type} [DecidableEq α] (xs : List α) : List (α × ℕ) :=
  xs.foldl bumpKey []

/-- Stable descending sort by count: `sorted(items, key=lambda x: x[1],
reverse=True)`.  Insertion sort with the relation `x ≽ y ↔ y.2 ≤ x.2` is
stable in the same sense as Python `sorted` with `reverse=True`: elements
with equal counts keep their original relative order. -/
def sortBySndDesc {α : Type} : List (α × ℕ) → List (α × ℕ) :=
  List.insertionSort (fun x y => y.2 ≤ x.2)

/-- Python `max(items, key=lambda x: x[1])` on a non-empty association
list (keeps the first element among those with the maximal count); also
`Counter.most_common(1)[0]`, whose tie-break is the same first-insertion
order. -/
def maxBySnd {α : Type} [Inhabited α] : List (α × ℕ) → α × ℕ
  | [] => (default, 0)
  | x :: xs => xs.foldl (fun b y => if b.2 < y.2 then y else b) x

/-- Python `max` of a non-empty integer list. -/
def maxList : List ℤ → ℤ
  | [] => 0
  | x :: xs => xs.foldl max x

/-- Python `min` of a non-empty integer list. -/
def minList : List ℤ → ℤ
  | [] => 0
  | x :: xs => xs.foldl min x

/-- Result shape of `analyze_time_patterns`. -/
structure TimePatterns where
  most_common_time : String
  time_distribution : List (String × ℕ)
  deriving Repr, DecidableEq

/-- The time-of-day band an hour is bucketed into by the `if`/`elif` chain
of `analyze_time_patterns`. -/
def bandOf (hour : ℤ) : String :=
  if hour < 6 then "early_morning"
  else if hour < 12 then "morning"
  else if hour < 17 then "afternoon"
  else if hour < 21 then "evening"
  else "night"

/-- `SimpleAnalyzer.analyze_time_patterns`.  `most_common_time` is
`f"{most_common_hour:02d}:00"`. -/
def analyze_time_patterns (activities : List Activity) : TimePatterns :=
  if activities = [] then
    { most_common_time := "18:00", time_distribution := [] }
  else
    let hours := activities.map (·.start_hour)
    let hour_counts := counterItems hours
    let most_common_hour : ℤ :=
      if hour_counts = [] then 18 else (maxBySnd hour_counts).1
    let time_distribution :=
      hours.foldl (fun d hour => bumpKey d (bandOf hour)) []
    { most_common_time := pad2 most_common_hour ++ ":00",
      time_distribution := time_distribution }

/-- `SimpleAnalyzer.calculate_avg_duration`: `round(statistics.mean(...))`
(mean computed exactly, rounded half-to-even). -/
def calculate_avg_duration (activities : List Activity) : ℤ :=
  if activities = [] then 30
  else
    let durations := activities.map (·.duration_minutes)
    pyRound ((durations.sum : ℚ) / (durations.length : ℚ))

/-- Result shape of `detect_weekly_pattern` (`day_counts` is absent from
the empty-input default dictionary, hence an `Option`). -/
structure WeeklyPattern where
  favorite_days : List String
  runs_per_week : ℤ
  day_counts : Option (List (String × ℕ))
  deriving Repr, DecidableEq

/-- `SimpleAnalyzer.detect_weekly_pattern`. -/
def detect_weekly_pattern (activities : List Activity) : WeeklyPattern :=
  if activities = [] then
    { favorite_days := ["Tuesday", "Thursday"], runs_per_week := 3,
      day_counts := none }
  else
    let weekdays := activities.map (·.weekday)
    let day_counts := counterItems weekdays
    let sorted_days := sortBySndDesc day_counts
    let favorite_days := (sorted_days.take 3).map (·.1)
    let dates := activities.map (·.date)
    let runs_per_week : ℤ :=
      if dates ≠ [] then
        let date_range : ℤ := maxList dates - minList dates + 1
        let weeks : ℚ := (date_range : ℚ) / 7
        if 0 < weeks then pyRound ((activities.length : ℚ) / weeks)
        else (activities.length : ℤ)
      else 3
    { favorite_days := favorite_days, runs_per_week := runs_per_week,
      day_counts := some day_counts }

/-- The `patterns` dictionary assembled by `FreeAICoach._fallback_to_rules`
and consumed by `generate_rule_based_recommendation`. -/
structure Patterns where
  time_patterns : TimePatterns
  avg_duration : ℤ
  weekly_pattern : WeeklyPattern
  deriving Repr, DecidableEq

/-- The dictionary returned by `generate_rule_based_recommendation`
(`ai_used` / `model` are added later by the caller layer). -/
structure RuleRec where
  time : String
  duration : ℤ
  intensity : String
  insight : String
  motivation : String
  confidence : ℚ
  deriving Repr, DecidableEq

/-- `SimpleAnalyzer.generate_rule_based_recommendation`.  Returns `none`
when one of the two `int(....split(':')[0])` conversions raises
`ValueError` (malformed `time_now` or `most_common_time`). -/
def generate_rule_based_recommendation (patterns : Patterns)
    (context : Context) : Option RuleRec := do
  let time_patterns := patterns.time_patterns
  let avg_duration := patterns.avg_duration
  let weekly_pattern := patterns.weekly_pattern
  let current_day := context.today
  let current_hour ← hourOf? context.time_now
  -- the `if current_day in favorite_days` block assigns `recommended_time`
  -- and `confidence`; both branches pick the same candidate time
  let recommended_time :=
    if current_day ∈ weekly_pattern.favorite_days then
      time_patterns.most_common_time
    else time_patterns.most_common_time
  let confidence : ℚ :=
    if current_day ∈ weekly_pattern.favorite_days then 0.8 else 0.6
  let rec_hour ← hourOf? recommended_time
  let recommended_time :=
    if rec_hour < current_hour then "tomorrow " ++ recommended_time
    else recommended_time
  let time_dist := time_patterns.time_distribution
  let max_period := if time_dist = [] then "evening" else (maxBySnd time_dist).1
  let rpw := weekly_pattern.runs_per_week
  let mct := time_patterns.most_common_time
  let insight := "You typically run " ++ toString rpw
    ++ " times per week, " ++ "mostly in the " ++ max_period
    ++ " around " ++ mct
  let motivation :=
    if current_day ∈ weekly_pattern.favorite_days then
      current_day ++ " is one of your favorite running days - stay consistent!"
    else
      "Mix it up today! Your usual days are "
        ++ String.intercalate ", " (weekly_pattern.favorite_days.take 2)
  -- `intensity = "moderate"` then the `if`/`elif` chain reassigning
  -- `intensity` and scaling `avg_duration`, rendered per variable
  let intensity :=
    if 3 < context.last_run_days_ago then "easy"
    else if context.last_run_days_ago = 0 then "easy"
    else "moderate"
  let duration :=
    if 3 < context.last_run_days_ago then
      pyTruncInt ((avg_duration : ℚ) * (0.8 : ℚ))
    else if context.last_run_days_ago = 0 then
      pyTruncInt ((avg_duration : ℚ) * (0.7 : ℚ))
    else avg_duration
  return { time := recommended_time, duration := duration,
           intensity := intensity, insight := insight,
           motivation := motivation, confidence := confidence }

/-- Python `round(x, 1)` on the exact value: round to one decimal place. -/
def pyRound1 (q : ℚ) : ℚ := (pyRound (q * 10) : ℚ) / 10

/-- Result shape of `calculate_performance_metrics` on non-empty input. -/
structure Metrics where
  total_distance_km : ℚ
  total_time_hours : ℚ
  average_pace_min_per_km : ℚ
  average_distance_km : ℚ
  average_duration_min : ℤ
  longest_run_km : ℚ
  total_runs : ℕ
  deriving Repr, DecidableEq

/-- Python `max` of a non-empty rational list. -/
def maxListQ : List ℚ → ℚ
  | [] => 0
  | x :: xs => xs.foldl max x

/-- `SimpleAnalyzer.calculate_performance_metrics`; `none` is the empty
dictionary returned for empty input. -/
def calculate_performance_metrics (activities : List Activity) :
    Option Metrics :=
  if activities = [] then none
  else
    let total_distance := (activities.map (·.distance_km)).sum
    let total_time := ((activities.map (·.duration_minutes)).sum : ℚ)
    let avg_pace := if 0 < total_distance then total_time / total_distance else 0
    let distances := activities.map (·.distance_km)
    let durations := activities.map (·.duration_minutes)
    some
      { total_distance_km := pyRound1 total_distance,
        total_time_hours := pyRound1 (total_time / 60),
        average_pace_min_per_km := pyRound1 avg_pace,
        average_distance_km :=
          pyRound1 (distances.sum / (distances.length : ℚ)),
        average_duration_min :=
          pyRound ((durations.sum : ℚ) / (durations.length : ℚ)),
        longest_run_km := pyRound1 (maxListQ distances),
        total_runs := activities.length }

/-- Renders a rational that is an exact multiple of `1/10` the way Python
`str` renders the corresponding one-decimal float (`12.5`, `4.0`, `-1.2`). -/
def fmtTenth (q : ℚ) : String :=
  let k := pyTruncInt (q * 10)
  let m := k.natAbs
  (if k < 0 then "-" else "") ++ toString (m / 10) ++ "." ++ toString (m % 10)

/-- ASCII apostrophe, spelled via its code point. -/
def apos : String := String.singleton (Char.ofNat 39)

/-- Result shape of the weekly-insights operations: `model` is absent
(`none`) from some of the dictionaries the source builds. -/
structure InsightsResult where
  insights : List String
  ai_used : Bool
  model : Option String
  deriving Repr, DecidableEq

/-- `SimpleAnalyzer.generate_weekly_insights`. -/
def generate_weekly_insights (activities : List Activity) : InsightsResult :=
  let metrics := calculate_performance_metrics activities
  let patterns := detect_weekly_pattern activities
  let totalRuns := match metrics with
    | none => 0
    | some m => m.total_runs
  let insights₁ : List String :=
    if 0 < totalRuns then
      match metrics with
      | none => []
      | some m =>
        ["You" ++ apos ++ "ve completed " ++ toString m.total_runs
          ++ " runs totaling " ++ fmtTenth m.total_distance_km ++ "km in "
          ++ fmtTenth m.total_time_hours ++ " hours"]
    else []
  let insights₂ : List String :=
    if patterns.favorite_days ≠ [] then
      ["Your most consistent running days are "
        ++ String.intercalate " and " (patterns.favorite_days.take 2)]
    else []
  let avgPace : ℚ := match metrics with
    | none => 0
    | some m => m.average_pace_min_per_km
  let insights₃ : List String :=
    if 0 < avgPace then
      let mins := pyTruncInt avgPace
      let secs := pyTruncInt ((avgPace - mins) * 60)
      ["Your average pace is " ++ toString mins ++ ":" ++ pad2 secs
        ++ " per kilometer"]
    else []
  { insights := (insights₁ ++ insights₂ ++ insights₃).take 3,
    ai_used := false,
    model := some "rule-based" }

/-- `config.FREE_AI_MODEL`. -/
def FREE_AI_MODEL : String := "meta-llama/llama-3.1-8b-instruct:free"

/-- `config.FALLBACK_TO_RULES` as configured; the claims quantify over both
settings, so the coach functions below take the flag as a parameter. -/
def FALLBACK_TO_RULES : Bool := true

/-- The full recommendation dictionary handed back to the caller of
`get_daily_recommendation`; `confidence` is only present on the rule-based
path. -/
structure Recommendation where
  time : String
  duration : ℤ
  intensity : String
  insight : String
  motivation : String
  confidence : Option ℚ
  ai_used : Bool
  model : String
  deriving Repr, DecidableEq

/-- Outcome of the chat-completion call in `get_daily_recommendation`, the
only effect of that function: the call raises (API error, timeout, …), or
its stripped content parses as JSON, or it is plain text
(`json.JSONDecodeError`). -/
inductive ModelOutcome where
  | raises : ModelOutcome
  | json (rec : Recommendation) : ModelOutcome
  | text (content : String) : ModelOutcome
  deriving Repr, DecidableEq

/-- `FreeAICoach._default_recommendation`; `none` models the `ValueError`
escaping from `int(context['time_now'].split(':')[0])`. -/
def default_recommendation (context : Context) : Option Recommendation := do
  let current_hour ← hourOf? context.time_now
  let time :=
    if current_hour < 12 then "7:00 AM"
    else if current_hour < 17 then "6:00 PM"
    else "tomorrow 7:00 AM"
  return { time := time, duration := 30, intensity := "moderate",
           insight := "Start with a comfortable 30-minute run",
           motivation := "Every journey begins with a single step!",
           confidence := none, ai_used := false, model := "default" }

/-- `FreeAICoach._fallback_to_rules`: run the analyzer, generate the
rule-based recommendation, and tag it `ai_used=False, model="rule-based"`. -/
def fallback_to_rules (activities : List Activity) (context : Context) :
    Option Recommendation := do
  let patterns := analyze_time_patterns activities
  let avg_duration := calculate_avg_duration activities
  let weekly_pattern := detect_weekly_pattern activities
  let recommendation ← generate_rule_based_recommendation
    { time_patterns := patterns, avg_duration := avg_duration,
      weekly_pattern := weekly_pattern } context
  return { time := recommendation.time, duration := recommendation.duration,
           intensity := recommendation.intensity,
           insight := recommendation.insight,
           motivation := recommendation.motivation,
           confidence := some recommendation.confidence,
           ai_used := false, model := "rule-based" }

/-- `FreeAICoach._parse_text_response`. -/
def parse_text_response (text : String) : Recommendation :=
  let base : Recommendation :=
    { time := "6:00 PM", duration := 30, intensity := "moderate",
      insight := pySlice 100 text, motivation := "Keep pushing forward!",
      confidence := none, ai_used := true, model := FREE_AI_MODEL }
  if pyIn "morning" (pyLower text) then { base with time := "7:00 AM" }
  else if pyIn "evening" (pyLower text) then { base with time := "6:00 PM" }
  else base

/-- `FreeAICoach.get_daily_recommendation`, with the model-call outcome and
the fallback flag as explicit parameters.  On the JSON path the source
overwrites `ai_used` / `model` in the parsed dictionary and returns it. -/
def get_daily_recommendation (fallback : Bool) (outcome : ModelOutcome)
    (activities : List Activity) (context : Context) :
    Option Recommendation :=
  if activities = [] then default_recommendation context
  else
    match outcome with
    | .json rec => some { rec with ai_used := true, model := FREE_AI_MODEL }
    | .text _content =>
        if fallback then fallback_to_rules activities context
        else some (parse_text_response _content)
    | .raises =>
        if fallback then fallback_to_rules activities context
        else default_recommendation context

/-- Outcome of the chat-completion call in `analyze_weekly_patterns`: raise,
JSON content (returned with `ai_used=True` patched in), or plain text. -/
inductive WeeklyOutcome where
  | raises : WeeklyOutcome
  | json (result : InsightsResult) : WeeklyOutcome
  | text (content : String) : WeeklyOutcome
  deriving Repr, DecidableEq

/-- `FreeAICoach.analyze_weekly_patterns`; the inner `except` turns non-JSON
content into a single truncated insight, the outer one falls back to
`generate_weekly_insights` (no flag guards this fallback). -/
def analyze_weekly_patterns (outcome : WeeklyOutcome)
    (activities : List Activity) : InsightsResult :=
  if activities = [] then
    { insights := ["No activity data available"], ai_used := false,
      model := none }
  else
    match outcome with
    | .json result => { result with ai_used := true }
    | .text content =>
        { insights := [pySlice 200 content], ai_used := true, model := none }
    | .raises => generate_weekly_insights activities

/-! ## Helper lemmas -/

/-- Sum of the counts of an association list. -/
def sumSnd {α : Type} (l : List (α × ℕ)) : ℕ := (l.map (·.2)).sum

theorem sumSnd_bumpKey {α : Type} [DecidableEq α] (d : List (α × ℕ)) (k : α) :
    sumSnd (bumpKey d k) = sumSnd d + 1 := by
  induction d with
  | nil => simp [bumpKey, sumSnd]
  | cons p rest ih =>
    obtain ⟨a, n⟩ := p
    by_cases hak : a = k
    · simp [bumpKey, hak, sumSnd]
      omega
    · simp only [bumpKey, if_neg hak, sumSnd, List.map_cons, List.sum_cons]
      simp only [sumSnd] at ih
      omega

theorem sumSnd_foldl_bands (hs : List ℤ) :
    ∀ acc : List (String × ℕ),
      sumSnd (hs.foldl (fun d hour => bumpKey d (bandOf hour)) acc) =
        sumSnd acc + hs.length := by
  induction hs with
  | nil => intro acc; simp
  | cons hh ht ih =>
    intro acc
    rw [List.foldl_cons, ih, sumSnd_bumpKey]
    simp
    omega

/-! ## The claims -/

/-- C9: for every activity list, the counts in the `time_distribution`
returned by `analyze_time_patterns` sum exactly to the number of input
activities (each `start_hour` lands in exactly one of the five bands), and
the empty list yields the empty distribution. -/
theorem time_distribution_counts_sum (activities : List Activity) :
    sumSnd (analyze_time_patterns activities).time_distribution =
      activities.length ∧
    (analyze_time_patterns ([] : List Activity)).time_distribution = [] := by
  refine ⟨?_, by simp [analyze_time_patterns]⟩
  by_cases h : activities = []
  · subst h; simp [analyze_time_patterns, sumSnd]
  · simp only [analyze_time_patterns, if_neg h]
    rw [sumSnd_foldl_bands]
    simp [sumSnd]

/-- C10: for the empty activity list, `analyze_weekly_patterns` returns
`{"insights": ["No activity data available"], "ai_used": false}` without
consulting the model outcome, and that dictionary carries no `model` key;
the rule-based fallback `generate_weekly_insights` always sets
`model = "rule-based"`. -/
theorem weekly_patterns_empty_default (outcome : WeeklyOutcome)
    (activities : List Activity) :
    analyze_weekly_patterns outcome [] =
      { insights := ["No activity data available"], ai_used := false,
        model := none } ∧
    (generate_weekly_insights activities).model = some "rule-based" := by
  exact ⟨by simp [analyze_weekly_patterns], by simp [generate_weekly_insights]⟩

/-- C5: for the empty activity list, `get_daily_recommendation` returns the
default recommendation whatever the model outcome and fallback flag are:
duration 30, intensity `moderate`, `ai_used = false`, `model = "default"`,
and the time is `7:00 AM` before noon, `6:00 PM` before 17:00, and
`tomorrow 7:00 AM` otherwise. -/
theorem empty_activities_default_recommendation (fb : Bool)
    (outcome : ModelOutcome) (c : Context) (h : ℤ)
    (hh : hourOf? c.time_now = some h) :
    get_daily_recommendation fb outcome [] c =
      some { time := if h < 12 then "7:00 AM"
                     else if h < 17 then "6:00 PM"
                     else "tomorrow 7:00 AM",
             duration := 30, intensity := "moderate",
             insight := "Start with a comfortable 30-minute run",
             motivation := "Every journey begins with a single step!",
             confidence := none, ai_used := false, model := "default" } := by
  simp [get_daily_recommendation, default_recommendation, hh]

/-- Witness for C5 at `time_now = "22:00"`: the time is
`tomorrow 7:00 AM`. -/
theorem empty_activities_default_recommendation_witness :
    get_daily_recommendation true ModelOutcome.raises []
        { today := "Monday", time_now := "22:00", last_run_days_ago := 0 } =
      some { time := "tomorrow 7:00 AM", duration := 30,
             intensity := "moderate",
             insight := "Start with a comfortable 30-minute run",
             motivation := "Every journey begins with a single step!",
             confidence := none, ai_used := false, model := "default" } := by
  have := empty_activities_default_recommendation true ModelOutcome.raises
    { today := "Monday", time_now := "22:00", last_run_days_ago := 0 } 22
    (by decide)
  simpa using this

/-- C4: with fallback disabled, a non-JSON model response is turned into a
heuristic recommendation: duration 30, intensity `moderate`, insight = the
first 100 characters of the response, `ai_used = true`, time `7:00 AM` when
the lowercased text contains `morning` and `6:00 PM` otherwise (so both
when it contains `evening` and when it contains neither); in particular
`"I think mornings are best for you"` yields `7:00 AM` and
`ai_used = true`. -/
theorem text_fallback_disabled_heuristic (t : String)
    (activities : List Activity) (c : Context) (hne : activities ≠ []) :
    get_daily_recommendation false (ModelOutcome.text t) activities c =
      some (parse_text_response t) ∧
    (parse_text_response t).duration = 30 ∧
    (parse_text_response t).intensity = "moderate" ∧
    (parse_text_response t).insight = pySlice 100 t ∧
    (parse_text_response t).ai_used = true ∧
    (pyIn "morning" (pyLower t) = true →
      (parse_text_response t).time = "7:00 AM") ∧
    (pyIn "morning" (pyLower t) = false →
      (parse_text_response t).time = "6:00 PM") ∧
    (parse_text_response "I think mornings are best for you").time =
      "7:00 AM" ∧
    (parse_text_response "I think mornings are best for you").ai_used =
      true := by
  refine ⟨by simp [get_daily_recommendation, hne], ?_, ?_, ?_, ?_, ?_, ?_,
    by decide, by decide⟩
  all_goals
    by_cases hm : pyIn "morning" (pyLower t) <;>
      by_cases he : pyIn "evening" (pyLower t) <;>
        simp [parse_text_response, hm, he]

/-- Witness for C4 on the concrete non-JSON response of the claim. -/
theorem text_fallback_disabled_heuristic_witness :
    get_daily_recommendation false
        (ModelOutcome.text "I think mornings are best for you")
        [⟨0, "07:00", 7, "Monday", 30, 5⟩]
        { today := "Monday", time_now := "10:00", last_run_days_ago := 1 } =
      some (parse_text_response "I think mornings are best for you") ∧
    (parse_text_response "I think mornings are best for you").time =
      "7:00 AM" ∧
    (parse_text_response "I think mornings are best for you").ai_used =
      true := by
  have := text_fallback_disabled_heuristic
    "I think mornings are best for you" [⟨0, "07:00", 7, "Monday", 30, 5⟩]
    { today := "Monday", time_now := "10:00", last_run_days_ago := 1 }
    (by decide)
  exact ⟨this.1, this.2.2.2.2.2.2.2.1, this.2.2.2.2.2.2.2.2⟩

theorem pyTruncInt_eq_floor (q : ℚ) (h : 0 ≤ q) : pyTruncInt q = ⌊q⌋ := by
  simp [pyTruncInt, h]

/-- `pyRound` really rounds to a nearest integer: the result is within one
half of its argument (ties go to the even integer, one consistent
policy). -/
theorem pyRound_nearest (q : ℚ) : |(pyRound q : ℚ) - q| ≤ 1/2 := by
  have h0 : (⌊q⌋ : ℚ) ≤ q := Int.floor_le q
  have h1 : q < ⌊q⌋ + 1 := Int.lt_floor_add_one q
  rw [abs_le]
  simp only [pyRound]
  by_cases hlt : q - (⌊q⌋ : ℚ) < 1/2
  · rw [if_pos hlt]
    constructor <;> linarith
  · rw [if_neg hlt]
    push_neg at hlt
    by_cases hgt : (1 : ℚ)/2 < q - (⌊q⌋ : ℚ)
    · rw [if_pos hgt]
      push_cast
      constructor <;> linarith
    · rw [if_neg hgt]
      push_neg at hgt
      by_cases hev : ⌊q⌋ % 2 = 0
      · rw [if_pos hev]
        constructor <;> linarith
      · rw [if_neg hev]
        push_cast
        constructor <;> linarith

/-- C6: for every non-empty activity list, `calculate_avg_duration` is the
arithmetic mean of the `duration_minutes` fields rounded to a nearest
integer (`pyRound`, the single round-half-to-even policy of Python
`round`), hence within one half of the exact mean; the empty list yields
exactly 30. -/
theorem avg_duration_is_rounded_mean (activities : List Activity) :
    (activities ≠ [] →
      calculate_avg_duration activities =
        pyRound (((activities.map (·.duration_minutes)).sum : ℚ) /
          (activities.length : ℚ)) ∧
      |(calculate_avg_duration activities : ℚ) -
          ((activities.map (·.duration_minutes)).sum : ℚ) /
            (activities.length : ℚ)| ≤ 1/2) ∧
    calculate_avg_duration [] = 30 := by
  refine ⟨fun h => ?_, by simp [calculate_avg_duration]⟩
  have hdef : calculate_avg_duration activities =
      pyRound (((activities.map (·.duration_minutes)).sum : ℚ) /
        (activities.length : ℚ)) := by
    simp [calculate_avg_duration, h]
  exact ⟨hdef, hdef ▸ pyRound_nearest _⟩

/-- Witness for C6: two runs of 30 and 41 minutes average to 35.5, which
rounds (half-to-even) to 36. -/
theorem avg_duration_is_rounded_mean_witness :
    calculate_avg_duration
        [⟨0, "07:00", 7, "Monday", 30, 5⟩, ⟨1, "08:00", 8, "Tuesday", 41, 5⟩] =
      pyRound (((([⟨0, "07:00", 7, "Monday", 30, 5⟩,
          ⟨1, "08:00", 8, "Tuesday", 41, 5⟩] : List Activity).map
            (·.duration_minutes)).sum : ℚ) /
        (([⟨0, "07:00", 7, "Monday", 30, 5⟩,
          ⟨1, "08:00", 8, "Tuesday", 41, 5⟩] : List Activity).length : ℚ)) ∧
    |(calculate_avg_duration
        [⟨0, "07:00", 7, "Monday", 30, 5⟩,
          ⟨1, "08:00", 8, "Tuesday", 41, 5⟩] : ℚ) -
        ((([⟨0, "07:00", 7, "Monday", 30, 5⟩,
          ⟨1, "08:00", 8, "Tuesday", 41, 5⟩] : List Activity).map
            (·.duration_minutes)).sum : ℚ) /
          (([⟨0, "07:00", 7, "Monday", 30, 5⟩,
            ⟨1, "08:00", 8, "Tuesday", 41, 5⟩] : List Activity).length : ℚ)| ≤
      1/2 :=
  (avg_duration_is_rounded_mean
    [⟨0, "07:00", 7, "Monday", 30, 5⟩, ⟨1, "08:00", 8, "Tuesday", 41, 5⟩]).1
    (by decide)

/-- Shape of every successful result of
`generate_rule_based_recommendation`: both `int(...)` conversions
succeeded, and the result is the record the source assembles. -/
theorem generate_eq_some (p : Patterns) (c : Context) (rec : RuleRec)
    (h : generate_rule_based_recommendation p c = some rec) :
    ∃ ch rh : ℤ,
      hourOf? c.time_now = some ch ∧
      hourOf? p.time_patterns.most_common_time = some rh ∧
      rec =
        { time := if rh < ch then
              "tomorrow " ++ p.time_patterns.most_common_time
            else p.time_patterns.most_common_time,
          duration :=
            if 3 < c.last_run_days_ago then
              pyTruncInt ((p.avg_duration : ℚ) * (0.8 : ℚ))
            else if c.last_run_days_ago = 0 then
              pyTruncInt ((p.avg_duration : ℚ) * (0.7 : ℚ))
            else p.avg_duration,
          intensity :=
            if 3 < c.last_run_days_ago then "easy"
            else if c.last_run_days_ago = 0 then "easy"
            else "moderate",
          insight := "You typically run "
            ++ toString p.weekly_pattern.runs_per_week
            ++ " times per week, " ++ "mostly in the "
            ++ (if p.time_patterns.time_distribution = [] then "evening"
                else (maxBySnd p.time_patterns.time_distribution).1)
            ++ " around " ++ p.time_patterns.most_common_time,
          motivation :=
            if c.today ∈ p.weekly_pattern.favorite_days then
              c.today ++ " is one of your favorite running days - stay consistent!"
            else
              "Mix it up today! Your usual days are "
                ++ String.intercalate ", "
                  (p.weekly_pattern.favorite_days.take 2),
          confidence :=
            if c.today ∈ p.weekly_pattern.favorite_days then (0.8 : ℚ)
            else 0.6 } := by
  have hsb : ∀ {α β : Type} (a : α) (f : α → Option β), (some a >>= f) = f a :=
    fun _ _ => rfl
  have hnb : ∀ {α β : Type} (f : α → Option β),
      ((none : Option α) >>= f) = none :=
    fun _ => rfl
  simp only [generate_rule_based_recommendation, ite_self] at h
  cases hch : hourOf? c.time_now with
  | none => rw [hch, hnb] at h; exact absurd h (by simp)
  | some ch =>
    rw [hch, hsb] at h
    cases hrh : hourOf? p.time_patterns.most_common_time with
    | none => rw [hrh, hnb] at h; exact absurd h (by simp)
    | some rh =>
      rw [hrh, hsb] at h
      rw [show ∀ {β : Type} (b : β), (pure b : Option β) = some b from
        fun _ => rfl, Option.some.injEq] at h
      exact ⟨ch, rh, rfl, rfl, h.symm⟩

/-- C3: the intensity policy of `generate_rule_based_recommendation` (for
the non-negative average durations the analyzer produces): more than 3
days since the last run gives an easy session of `floor(avg * 0.8)`
minutes; a run already done today gives an easy session of
`floor(avg * 0.7)` minutes; 1–3 days gives a moderate session with the
average duration unchanged. -/
theorem intensity_policy (p : Patterns) (c : Context) (rec : RuleRec)
    (havg : 0 ≤ p.avg_duration)
    (h : generate_rule_based_recommendation p c = some rec) :
    (3 < c.last_run_days_ago →
      rec.intensity = "easy" ∧
      rec.duration = ⌊(p.avg_duration : ℚ) * (0.8 : ℚ)⌋) ∧
    (c.last_run_days_ago = 0 →
      rec.intensity = "easy" ∧
      rec.duration = ⌊(p.avg_duration : ℚ) * (0.7 : ℚ)⌋) ∧
    ((c.last_run_days_ago = 1 ∨ c.last_run_days_ago = 2 ∨
        c.last_run_days_ago = 3) →
      rec.intensity = "moderate" ∧ rec.duration = p.avg_duration) := by
  obtain ⟨ch, rh, -, -, rfl⟩ := generate_eq_some p c rec h
  have h8 : (0 : ℚ) ≤ (p.avg_duration : ℚ) * (0.8 : ℚ) := by positivity
  have h7 : (0 : ℚ) ≤ (p.avg_duration : ℚ) * (0.7 : ℚ) := by positivity
  refine ⟨fun hgt => ?_, fun heq => ?_, fun hmid => ?_⟩
  · simp [hgt, pyTruncInt_eq_floor _ h8]
  · have : ¬ 3 < c.last_run_days_ago := by omega
    simp [heq, this, pyTruncInt_eq_floor _ h7]
  · have h1 : ¬ 3 < c.last_run_days_ago := by omega
    have h2 : ¬ c.last_run_days_ago = 0 := by omega
    simp [h1, h2]

/-- C8: `generate_rule_based_recommendation` sets confidence 0.8 when
today is a favorite day and 0.6 otherwise; the candidate time is
`most_common_time` in both branches, and it is prefixed with `tomorrow `
exactly when its hour part is strictly less than the hour part of
`time_now`. -/
theorem confidence_and_time_prefix (p : Patterns) (c : Context)
    (rec : RuleRec) (ch rh : ℤ)
    (hc : hourOf? c.time_now = some ch)
    (hr : hourOf? p.time_patterns.most_common_time = some rh)
    (h : generate_rule_based_recommendation p c = some rec) :
    rec.confidence =
      (if c.today ∈ p.weekly_pattern.favorite_days then (0.8 : ℚ)
       else 0.6) ∧
    rec.time =
      (if rh < ch then "tomorrow " ++ p.time_patterns.most_common_time
       else p.time_patterns.most_common_time) := by
  obtain ⟨ch', rh', hch', hrh', rfl⟩ := generate_eq_some p c rec h
  rw [hc, Option.some.injEq] at hch'
  rw [hr, Option.some.injEq] at hrh'
  subst hch'
  subst hrh'
  exact ⟨rfl, rfl⟩

/-- Concrete patterns input for the C3 witness. -/
def c3pat : Patterns :=
  { time_patterns := { most_common_time := "08:00", time_distribution := [] },
    avg_duration := 50,
    weekly_pattern :=
      { favorite_days := ["Monday"], runs_per_week := 3, day_counts := none } }

/-- Concrete context for the C3 witness: last run 5 days ago. -/
def c3ctx : Context :=
  { today := "Friday", time_now := "10:00", last_run_days_ago := 5 }

/-- The recommendation the source produces on `c3pat`/`c3ctx`. -/
def c3rec : RuleRec :=
  { time := "tomorrow 08:00",
    duration := pyTruncInt (((50 : ℤ) : ℚ) * (0.8 : ℚ)),
    intensity := "easy",
    insight :=
      "You typically run 3 times per week, mostly in the evening around 08:00",
    motivation := "Mix it up today! Your usual days are Monday",
    confidence := 0.6 }

/-- Witness for C3 at a concrete input (5 days since the last run). -/
theorem intensity_policy_witness :
    ((3 : ℤ) < c3ctx.last_run_days_ago →
      c3rec.intensity = "easy" ∧
      c3rec.duration = ⌊(c3pat.avg_duration : ℚ) * (0.8 : ℚ)⌋) ∧
    (c3ctx.last_run_days_ago = 0 →
      c3rec.intensity = "easy" ∧
      c3rec.duration = ⌊(c3pat.avg_duration : ℚ) * (0.7 : ℚ)⌋) ∧
    ((c3ctx.last_run_days_ago = 1 ∨ c3ctx.last_run_days_ago = 2 ∨
        c3ctx.last_run_days_ago = 3) →
      c3rec.intensity = "moderate" ∧ c3rec.duration = c3pat.avg_duration) :=
  intensity_policy c3pat c3ctx c3rec (by decide) (by
    simp [generate_rule_based_recommendation, hourOf?, pyInt?, decDigits?,
      maxBySnd, c3pat, c3ctx, c3rec]
    decide)

/-- Concrete patterns input for the C8 witness. -/
def c8pat : Patterns :=
  { time_patterns :=
      { most_common_time := "18:00", time_distribution := [("evening", 2)] },
    avg_duration := 40,
    weekly_pattern :=
      { favorite_days := ["Tuesday", "Monday"], runs_per_week := 2,
        day_counts := none } }

/-- Concrete context for the C8 witness: a favorite day, 16:30. -/
def c8ctx : Context :=
  { today := "Tuesday", time_now := "16:30", last_run_days_ago := 2 }

/-- The recommendation the source produces on `c8pat`/`c8ctx`. -/
def c8rec : RuleRec :=
  { time := "18:00", duration := 40, intensity := "moderate",
    insight :=
      "You typically run 2 times per week, mostly in the evening around 18:00",
    motivation := "Tuesday is one of your favorite running days - stay consistent!",
    confidence := 0.8 }

/-- Witness for C8 at a concrete input (favorite day, candidate hour 18 not
less than current hour 16). -/
theorem confidence_and_time_prefix_witness :
    c8rec.confidence =
      (if c8ctx.today ∈ c8pat.weekly_pattern.favorite_days then (0.8 : ℚ)
       else 0.6) ∧
    c8rec.time =
      (if (18 : ℤ) < 16 then
        "tomorrow " ++ c8pat.time_patterns.most_common_time
       else c8pat.time_patterns.most_common_time) :=
  confidence_and_time_prefix c8pat c8ctx c8rec 16 18 (by decide) (by decide)
    (by
      simp [generate_rule_based_recommendation, hourOf?, pyInt?, decDigits?,
        maxBySnd, c8pat, c8ctx, c8rec]
      decide)

/-- C2: with the fallback flag enabled and a non-empty activity list, a
raising model call makes `get_daily_recommendation` return exactly the
rule-based recommendation computed from the three analyzer outputs on the
same activities and context, tagged `ai_used = false`,
`model = "rule-based"`. -/
theorem model_error_falls_back_to_rules (activities : List Activity)
    (c : Context) (rec : RuleRec) (hne : activities ≠ [])
    (h : generate_rule_based_recommendation
        { time_patterns := analyze_time_patterns activities,
          avg_duration := calculate_avg_duration activities,
          weekly_pattern := detect_weekly_pattern activities } c =
      some rec) :
    get_daily_recommendation true ModelOutcome.raises activities c =
      some { time := rec.time, duration := rec.duration,
             intensity := rec.intensity, insight := rec.insight,
             motivation := rec.motivation,
             confidence := some rec.confidence,
             ai_used := false, model := "rule-based" } := by
  simp [get_daily_recommendation, fallback_to_rules, hne, h]

/-- Concrete activities for the C2 witness (three runs over two weeks). -/
def c2acts : List Activity :=
  [⟨0, "07:00", 7, "Monday", 30, 5⟩, ⟨0, "18:30", 18, "Tuesday", 40, 6⟩,
    ⟨13, "18:30", 18, "Tuesday", 50, 6⟩]

/-- Concrete context for the C2 witness. -/
def c2ctx : Context :=
  { today := "Tuesday", time_now := "16:30", last_run_days_ago := 2 }

/-- The rule-based recommendation the analyzers produce on `c2acts`. -/
def c2rec : RuleRec :=
  { time := "18:00", duration := 40, intensity := "moderate",
    insight :=
      "You typically run 2 times per week, mostly in the evening around 18:00",
    motivation := "Tuesday is one of your favorite running days - stay consistent!",
    confidence := 0.8 }

/-- Witness for C2 at a concrete input: the raising model call yields the
rule-based recommendation tagged `rule-based`. -/
theorem model_error_falls_back_to_rules_witness :
    get_daily_recommendation true ModelOutcome.raises c2acts c2ctx =
      some { time := c2rec.time, duration := c2rec.duration,
             intensity := c2rec.intensity, insight := c2rec.insight,
             motivation := c2rec.motivation,
             confidence := some c2rec.confidence,
             ai_used := false, model := "rule-based" } :=
  model_error_falls_back_to_rules c2acts c2ctx c2rec (by decide) (by
    simp [generate_rule_based_recommendation, analyze_time_patterns,
      calculate_avg_duration, detect_weekly_pattern, counterItems, bumpKey,
      sortBySndDesc, List.insertionSort, List.orderedInsert, maxBySnd,
      maxList, minList, hourOf?, pyInt?, decDigits?, pad2, bandOf, pyRound,
      c2acts, c2ctx, c2rec, show toString (18 : ℤ) = "18" from rfl]
    norm_num [Int.fract]
    decide)

theorem keys_bumpKey {α : Type} [DecidableEq α] (d : List (α × ℕ)) (k q : α)
    (hq : q ∈ (bumpKey d k).map (·.1)) : q ∈ d.map (·.1) ∨ q = k := by
  induction d with
  | nil =>
    right
    simpa [bumpKey] using hq
  | cons p rest ih =>
    obtain ⟨a, n⟩ := p
    by_cases hak : a = k
    · rw [bumpKey, if_pos hak] at hq
      simp only [List.map_cons, List.mem_cons] at hq ⊢
      tauto
    · rw [bumpKey, if_neg hak] at hq
      simp only [List.map_cons, List.mem_cons] at hq ⊢
      rcases hq with hq | hq
      · tauto
      · rcases ih hq with h' | h' <;> tauto

theorem keys_foldl_bumpKey {α : Type} [DecidableEq α] (xs : List α) :
    ∀ (acc : List (α × ℕ)) (q : α),
      q ∈ (xs.foldl bumpKey acc).map (·.1) → q ∈ acc.map (·.1) ∨ q ∈ xs := by
  induction xs with
  | nil =>
    intro acc q h
    left
    simpa using h
  | cons x xs ih =>
    intro acc q h
    rw [List.foldl_cons] at h
    rcases ih (bumpKey acc x) q h with h' | h'
    · rcases keys_bumpKey acc x q h' with h'' | h''
      · exact Or.inl h''
      · exact Or.inr (by simp [h''])
    · exact Or.inr (by simp [h'])

/-- Every key of `counterItems xs` is an element of `xs`. -/
theorem keys_counterItems {α : Type} [DecidableEq α] (xs : List α) (q : α)
    (h : q ∈ (counterItems xs).map (·.1)) : q ∈ xs := by
  rcases keys_foldl_bumpKey xs [] q h with h' | h'
  · simp at h'
  · exact h'

/-- C7: `detect_weekly_pattern` returns at most 3 favorite days; on a
non-empty input every favorite day is a weekday occurring in the input,
and on the empty input the favorites are exactly Tuesday and Thursday. -/
theorem favorite_days_sound (activities : List Activity) :
    (detect_weekly_pattern activities).favorite_days.length ≤ 3 ∧
    (activities = [] →
      (detect_weekly_pattern activities).favorite_days =
        ["Tuesday", "Thursday"]) ∧
    (activities ≠ [] →
      ∀ d ∈ (detect_weekly_pattern activities).favorite_days,
        d ∈ activities.map (·.weekday)) := by
  by_cases h : activities = []
  · subst h
    exact ⟨by simp [detect_weekly_pattern], fun _ => rfl,
      fun hne => absurd rfl hne⟩
  · refine ⟨?_, fun he => absurd he h, fun _ d hd => ?_⟩
    · simp only [detect_weekly_pattern, if_neg h]
      rw [List.length_map]
      exact List.length_take_le 3 _
    · simp only [detect_weekly_pattern, if_neg h] at hd
      obtain ⟨p, hp, hpd⟩ := List.mem_map.mp hd
      have hp' : p ∈ sortBySndDesc (counterItems (activities.map (·.weekday))) :=
        List.mem_of_mem_take hp
      have hp'' : p ∈ counterItems (activities.map (·.weekday)) :=
        (List.perm_insertionSort _ _).mem_iff.mp hp'
      have : p.1 ∈ (counterItems (activities.map (·.weekday))).map (·.1) :=
        List.mem_map_of_mem _ hp''
      rw [hpd] at this
      exact keys_counterItems _ d this

/-- Witness for C7 at a concrete non-empty input. -/
theorem favorite_days_sound_witness :
    "Monday" ∈ (List.map (·.weekday) [(⟨0, "07:00", 7, "Monday", 30, 5⟩ :
      Activity)]) :=
  (favorite_days_sound [⟨0, "07:00", 7, "Monday", 30, 5⟩]).2.2 (by decide)
    "Monday" (by decide)

theorem le_foldl_max (l : List ℤ) (a : ℤ) : a ≤ l.foldl max a := by
  induction l generalizing a with
  | nil => simp
  | cons x xs ih =>
    rw [List.foldl_cons]
    exact le_trans (le_max_left a x) (ih (max a x))

theorem foldl_min_le (l : List ℤ) (a : ℤ) : l.foldl min a ≤ a := by
  induction l generalizing a with
  | nil => simp
  | cons x xs ih =>
    rw [List.foldl_cons]
    exact le_trans (ih (min a x)) (min_le_left a x)

theorem minList_le_maxList (l : List ℤ) (h : l ≠ []) :
    minList l ≤ maxList l := by
  cases l with
  | nil => exact absurd rfl h
  | cons x xs =>
    exact le_trans (foldl_min_le xs x) (le_foldl_max xs x)

/-- The `runs_per_week` formula exactly as claim C1 (and the spec sentence
it quotes) states it: `round(count / max(1, date_span_days/7))`, with
`count` when the span is zero or negative — to be compared against the
source's `detect_weekly_pattern`, which divides by `date_span_days/7`
without clamping it at 1. -/
def claimed_runs_per_week (activities : List Activity) : ℤ :=
  let dates := activities.map (·.date)
  let span : ℤ := maxList dates - minList dates + 1
  if span ≤ 0 then (activities.length : ℤ)
  else pyRound ((activities.length : ℚ) / max 1 ((span : ℚ) / 7))

/-- Counterexample to C1 as stated: two runs on the same day give a span
of 1 day, so the code computes `round(2 / (1/7)) = 14` runs per week, while
the claim's clamped formula gives `round(2 / max(1, 1/7)) = 2`. -/
theorem runs_per_week_claim_counterexample :
    (detect_weekly_pattern
        [⟨0, "07:00", 7, "Monday", 30, 5⟩,
          ⟨0, "08:00", 8, "Monday", 40, 6⟩]).runs_per_week = 14 ∧
    claimed_runs_per_week
        [⟨0, "07:00", 7, "Monday", 30, 5⟩,
          ⟨0, "08:00", 8, "Monday", 40, 6⟩] = 2 := by
  constructor
  · simp [detect_weekly_pattern, maxList, minList, pyRound]
    norm_num [Int.fract]
  · simp [claimed_runs_per_week, maxList, minList, pyRound]
    norm_num [Int.fract]

/-- C1 amended: for a non-empty activity list the span
`(max date − min date) + 1` is always at least 1 (so the zero-or-negative
branch of the claim never arises), and `runs_per_week` is
`round(count / (date_span_days/7))` — without the claimed `max(1, ·)`
clamp; the empty list yields 3. -/
theorem runs_per_week_formula (activities : List Activity)
    (h : activities ≠ []) :
    1 ≤ maxList (activities.map (·.date)) -
        minList (activities.map (·.date)) + 1 ∧
    (detect_weekly_pattern activities).runs_per_week =
      pyRound ((activities.length : ℚ) /
        (((maxList (activities.map (·.date)) -
            minList (activities.map (·.date)) + 1 : ℤ) : ℚ) / 7)) ∧
    (detect_weekly_pattern ([] : List Activity)).runs_per_week = 3 := by
  have hd : activities.map (·.date) ≠ [] := by
    simpa using h
  have hmm : minList (activities.map (·.date)) ≤
      maxList (activities.map (·.date)) := minList_le_maxList _ hd
  have hspan : (1 : ℤ) ≤ maxList (activities.map (·.date)) -
      minList (activities.map (·.date)) + 1 := by omega
  refine ⟨hspan, ?_, rfl⟩
  have hq : (0 : ℚ) < ((maxList (activities.map (·.date)) -
      minList (activities.map (·.date)) + 1 : ℤ) : ℚ) / 7 := by
    have : (1 : ℚ) ≤ ((maxList (activities.map (·.date)) -
        minList (activities.map (·.date)) + 1 : ℤ) : ℚ) := by
      exact_mod_cast hspan
    linarith
  simp only [detect_weekly_pattern, if_neg h, if_neg (by simpa using hd),
    hq, if_pos]
  simp [hd]

/-- Witness for C1 (amended) at a concrete input. -/
theorem runs_per_week_formula_witness :
    1 ≤ maxList (([⟨0, "07:00", 7, "Monday", 30, 5⟩,
          ⟨0, "08:00", 8, "Monday", 40, 6⟩] : List Activity).map (·.date)) -
        minList (([⟨0, "07:00", 7, "Monday", 30, 5⟩,
          ⟨0, "08:00", 8, "Monday", 40, 6⟩] : List Activity).map (·.date)) +
        1 ∧
    (detect_weekly_pattern
        [⟨0, "07:00", 7, "Monday", 30, 5⟩,
          ⟨0, "08:00", 8, "Monday", 40, 6⟩]).runs_per_week =
      pyRound ((([⟨0, "07:00", 7, "Monday", 30, 5⟩,
          ⟨0, "08:00", 8, "Monday", 40, 6⟩] : List Activity).length : ℚ) /
        (((maxList (([⟨0, "07:00", 7, "Monday", 30, 5⟩,
              ⟨0, "08:00", 8, "Monday", 40, 6⟩] : List Activity).map
                (·.date)) -
            minList (([⟨0, "07:00", 7, "Monday", 30, 5⟩,
              ⟨0, "08:00", 8, "Monday", 40, 6⟩] : List Activity).map
                (·.date)) + 1 : ℤ) : ℚ) / 7)) ∧
    (detect_weekly_pattern ([] : List Activity)).runs_per_week = 3 :=
  runs_per_week_formula
    [⟨0, "07:00", 7, "Monday", 30, 5⟩, ⟨0, "08:00", 8, "Monday", 40, 6⟩]
    (by decide)
